import Mathlib

/-!
Verification of the iron-borrowing (checkout) ledger of the Backend-SHMS
repository.  The embedded functions mirror, in order:

* `DatabaseManager.borrowIron` and `DatabaseManager.returnIron`
  (src/database.js, lines 230-254): `Array.find` on `ironId` followed by an
  in-place mutation of the found element, guarded by its `available` flag;
* the HTTP route handlers of the two server variants:
  `router.post('/iron-borrowing/borrow' | '/return')` in src/unnamed/part_000
  (which delegate to `borrowIron` / `returnIron`), and
  `app.post('/api/iron-borrowing/borrow' | '/return')` in src/unnamed/part_001
  (which inline the same find-check-mutate sequence);
* the summary read of `router.get('/iron-borrowing')` (part_000, lines 621-637);
* the seed states: the random `getDefaultIrons` (database.js, lines 114-127)
  and the hard-coded `ironBorrowing` array of part_001 (lines 95-101);
* a step relation covering every operation of the running system, including
  the `setInterval` auto-save and the SIGINT save handler
  (database.js, lines 315-324), which only persist and never mutate irons.

Timestamps are milliseconds since the epoch, as `Int`; `new Date()` and
`Date.now()` inside one handler are modelled as a single clock reading `now`.
JavaScript `undefined` / `null` fields are `Option.none`; the falsy test
`!x` on a number is `x == 0`, on a string `x == ""`, per JS truthiness.
-/

namespace IronLedger

/-- One element of `database.ironBorrowing`: fields exactly as written by
`getDefaultIrons` and mutated by `borrowIron` / `returnIron`
(src/database.js).  `available = false` is the CheckedOut status of the spec;
`borrowedBy`/`borrowedAt`/`returnBy`/`room` are the spec's
holder/checkedOutAt/dueAt/location. -/
structure Iron where
  ironId : Int
  available : Bool
  borrowedBy : Option String
  borrowedAt : Option Int
  returnBy : Option Int
  room : Option String
deriving Repr, DecidableEq

/-- One hour in milliseconds: the `60 * 60 * 1000` factor of
`new Date(Date.now() + duration * 60 * 60 * 1000)`. -/
def hourMs : Int := 60 * 60 * 1000

/-- JS `v || d` for an optional number `v`: `undefined` (none) and `0` are
falsy and yield the default `d`; every other number (negatives included) is
truthy and is returned unchanged. -/
def jsOr (v : Option Int) (d : Int) : Int :=
  match v with
  | none => d
  | some x => if x = 0 then d else x

/-- JS `v || d` for an optional string: `undefined` and `""` are falsy. -/
def jsOrStr (v : Option String) (d : String) : String :=
  match v with
  | none => d
  | some s => if s = "" then d else s

/-- The `borrowerData` argument of `DatabaseManager.borrowIron`:
`{ borrowerName, duration, room }` as assembled by the part_000 route. -/
structure BorrowerData where
  borrowerName : String
  duration : Option Int
  room : Option String
deriving Repr, DecidableEq

/-- `this.database.ironBorrowing.find(i => i.ironId === ironId)`:
first element with the requested id, if any. -/
def findIron (irons : List Iron) (id : Int) : Option Iron :=
  irons.find? (fun i => i.ironId == id)

/-- The record produced by `borrowIron`'s mutation block (database.js 233-237):
`available = false`, `borrowedBy = borrowerName`, `borrowedAt = new Date()`,
`returnBy = new Date(Date.now() + (duration || 4) * 60*60*1000)`,
`room = borrowerData.room`. -/
def borrowedIron (i : Iron) (bd : BorrowerData) (now : Int) : Iron :=
  { i with
      available := false
      borrowedBy := some bd.borrowerName
      borrowedAt := some now
      returnBy := some (now + jsOr bd.duration 4 * hourMs)
      room := bd.room }

/-- The record produced by `returnIron`'s mutation block (database.js 246-250):
`available = true` and all four borrow fields set to `null`. -/
def clearedIron (i : Iron) : Iron :=
  { i with
      available := true
      borrowedBy := none
      borrowedAt := none
      returnBy := none
      room := none }

/-- `DatabaseManager.borrowIron(ironId, borrowerData)` (database.js 230-241).
`find` locates the first element with the id; `if (iron && iron.available)`
guards the in-place mutation; the (possibly mutated) found element is
returned together with the updated array.  When no element matches, the call
returns `undefined` (`none`) and the array is untouched. -/
def borrowIron (irons : List Iron) (id : Int) (bd : BorrowerData) (now : Int) :
    Option Iron × List Iron :=
  match irons with
  | [] => (none, [])
  | i :: rest =>
    if i.ironId == id then
      if i.available then
        (some (borrowedIron i bd now), borrowedIron i bd now :: rest)
      else
        (some i, i :: rest)
    else
      let r := borrowIron rest id bd now
      (r.1, i :: r.2)

/-- `DatabaseManager.returnIron(ironId)` (database.js 243-254).
`find` then `if (iron && !iron.available)` guards the clearing mutation;
the found element is returned either way. -/
def returnIron (irons : List Iron) (id : Int) : Option Iron × List Iron :=
  match irons with
  | [] => (none, [])
  | i :: rest =>
    if i.ironId == id then
      if !i.available then
        (some (clearedIron i), clearedIron i :: rest)
      else
        (some i, i :: rest)
    else
      let r := returnIron rest id
      (r.1, i :: r.2)

/-- Replace the first element whose `ironId` matches: the effect on the array
of the part_001 routes' in-place mutation of the element found by `find`. -/
def setFirst (irons : List Iron) (id : Int) (iNew : Iron) : List Iron :=
  match irons with
  | [] => []
  | i :: rest =>
    if i.ironId == id then iNew :: rest else i :: setFirst rest id iNew

/-- Responses of the borrow routes, tagged by the HTTP reply each handler
sends.  `missingFields` is the 400 "Iron ID and borrower name are required",
`notFound` the 404 "Iron not found", `alreadyBorrowed` the 400
"Iron is already borrowed" (the spec's `AlreadyCheckedOut`), and `success`
carries the iron snapshot of the success JSON. -/
inductive BorrowResponse where
  | missingFields
  | notFound
  | alreadyBorrowed
  | success (iron : Iron)
deriving Repr, DecidableEq

/-- Responses of the return routes.  `notBorrowed` is part_001's 400
"Iron is not currently borrowed" (the spec's `NotCheckedOut`); part_000 has
no such branch. -/
inductive ReturnResponse where
  | missingFields
  | notFound
  | notBorrowed
  | success (iron : Iron)
deriving Repr, DecidableEq

/-- `router.post('/iron-borrowing/borrow')` (src/unnamed/part_000, 640-668).
After the falsy check on `ironId` and `borrowerName`, it calls
`dbManager.borrowIron(parseInt(ironId), { borrowerName, room: room || '',
duration: parseInt(duration) || 4 })`, answers 404 when that returns
`undefined`, 400 "Iron is already borrowed" when the returned iron has
`available` false, and success otherwise. -/
def borrowRoutePart000 (irons : List Iron) (ironId : Int) (borrowerName : String)
    (room : Option String) (duration : Option Int) (now : Int) :
    BorrowResponse × List Iron :=
  if ironId == 0 || borrowerName == "" then
    (.missingFields, irons)
  else
    let r := borrowIron irons ironId
      ⟨borrowerName, some (jsOr duration 4), some (jsOrStr room "")⟩ now
    match r.1 with
    | none => (.notFound, r.2)
    | some iron =>
      if !iron.available then (.alreadyBorrowed, r.2)
      else (.success iron, r.2)

/-- `app.post('/api/iron-borrowing/borrow')` (src/unnamed/part_001, 646-678).
Falsy check, `find`, 404 when absent, 400 when `!iron.available`, otherwise
the inline mutation (`iron.room = room` keeps an absent room absent) and the
success reply carrying the mutated iron. -/
def borrowRoutePart001 (irons : List Iron) (ironId : Int) (borrowerName : String)
    (room : Option String) (duration : Option Int) (now : Int) :
    BorrowResponse × List Iron :=
  if ironId == 0 || borrowerName == "" then
    (.missingFields, irons)
  else
    match findIron irons ironId with
    | none => (.notFound, irons)
    | some iron =>
      if !iron.available then (.alreadyBorrowed, irons)
      else
        let iNew : Iron :=
          { iron with
              available := false
              borrowedBy := some borrowerName
              borrowedAt := some now
              returnBy := some (now + jsOr duration 4 * hourMs)
              room := room }
        (.success iNew, setFirst irons ironId iNew)

/-- `router.post('/iron-borrowing/return')` (src/unnamed/part_000, 671-691).
Falsy check on `ironId`, then `dbManager.returnIron(parseInt(ironId))`;
404 when that returns `undefined`, otherwise an unconditional success reply
"Iron returned successfully" — there is no already-available branch. -/
def returnRoutePart000 (irons : List Iron) (ironId : Int) :
    ReturnResponse × List Iron :=
  if ironId == 0 then
    (.missingFields, irons)
  else
    let r := returnIron irons ironId
    match r.1 with
    | none => (.notFound, r.2)
    | some iron => (.success iron, r.2)

/-- `app.post('/api/iron-borrowing/return')` (src/unnamed/part_001, 680-712).
Falsy check, `find`, 404 when absent, 400 "Iron is not currently borrowed"
when `iron.available`, otherwise the clearing mutation and success. -/
def returnRoutePart001 (irons : List Iron) (ironId : Int) :
    ReturnResponse × List Iron :=
  if ironId == 0 then
    (.missingFields, irons)
  else
    match findIron irons ironId with
    | none => (.notFound, irons)
    | some iron =>
      if iron.available then (.notBorrowed, irons)
      else
        (.success (clearedIron iron), setFirst irons ironId (clearedIron iron))

/-- The summary object of `router.get('/iron-borrowing')` (part_000, 621-637):
`total = irons.length`, `available = irons.filter(i => i.available).length`,
`borrowed = irons.filter(i => !i.available).length`, computed from the
current array on every call. -/
structure IronSummary where
  total : Nat
  available : Nat
  borrowed : Nat
deriving Repr, DecidableEq

/-- The freshly computed summary of the part_000 status route. -/
def summarize (irons : List Iron) : IronSummary :=
  { total := irons.length
    available := (irons.filter (fun i => i.available)).length
    borrowed := (irons.filter (fun i => !i.available)).length }

/-- Invariant I1 of the spec, per unit: CheckedOut (`available = false`) has
all four of holder, checkedOutAt, dueAt, location present; Available has all
four absent. -/
def satisfiesI1 (i : Iron) : Bool :=
  if i.available then
    i.borrowedBy == none && i.borrowedAt == none
      && i.returnBy == none && i.room == none
  else
    i.borrowedBy.isSome && i.borrowedAt.isSome
      && i.returnBy.isSome && i.room.isSome

/-- One unit of `getDefaultIrons` (database.js 114-127).  Every field makes
its own independent `Math.random() > 0.3` draw; `d1..d5` are those five
draws in source order (`available`, then the null-conditions of
`borrowedBy`, `borrowedAt`, `returnBy`, `room`).  `roomStr` stands for the
randomly generated room string of the last field. -/
def defaultIronUnit (i : Int) (d1 d2 d3 d4 d5 : Bool) (now : Int)
    (roomStr : String) : Iron :=
  { ironId := i
    available := d1
    borrowedBy := if d2 then none else some ("Student " ++ toString i)
    borrowedAt := if d3 then none else some now
    returnBy := if d4 then none else some (now + 4 * hourMs)
    room := if d5 then none else some roomStr }

/-- The hard-coded `ironBorrowing` seed of part_001 (lines 95-101).  The two
borrowed units (3 and 5) carry `borrowedBy`, `borrowedAt`, `returnBy` but the
object literals have no `room` field at all, so `room` is absent. -/
def part001SeedIrons (now : Int) : List Iron :=
  [ ⟨1, true, none, none, none, none⟩,
    ⟨2, true, none, none, none, none⟩,
    ⟨3, false, some "John Doe", some now, some (now + 4 * hourMs), none⟩,
    ⟨4, true, none, none, none, none⟩,
    ⟨5, false, some "Jane Smith", some now, some (now + 2 * hourMs), none⟩ ]

/-- Every externally triggered operation of the running system:
the two mutating routes, the persistence-only timer (`setInterval(saveAll)`,
database.js 316-318), the persistence-only SIGINT handler (321-324), the
read-only status route, and the passage of time. -/
inductive Action where
  | borrow (ironId : Int) (bd : BorrowerData)
  | ret (ironId : Int)
  | autosave
  | shutdownSave
  | readStatus
  | tick (dt : Int)
deriving Repr, DecidableEq

/-- Running system state: the in-memory iron array and the clock. -/
structure SysState where
  irons : List Iron
  now : Int
deriving Repr, DecidableEq

/-- One step of the system.  `saveAll` (timer and SIGINT) only serialises
`this.database` to disk and never mutates it, and the status route only
reads, so from the ledger's viewpoint these three leave the irons as they
are; `tick` advances only the clock. -/
def step (s : SysState) : Action → SysState
  | .borrow id bd => { s with irons := (borrowIron s.irons id bd s.now).2 }
  | .ret id => { s with irons := (returnIron s.irons id).2 }
  | .autosave => s
  | .shutdownSave => s
  | .readStatus => s
  | .tick dt => { s with now := s.now + dt }

/-- Availability of the unit `find` would locate: `none` when the id is
unknown, otherwise the `available` flag of the first matching element. -/
def ironStatus (irons : List Iron) (id : Int) : Option Bool :=
  (findIron irons id).map (fun i => i.available)

/-- A free unit used as a concrete test state. -/
def demoFree : Iron := ⟨1, true, none, none, none, none⟩

/-- A checked-out unit used as a concrete test state. -/
def demoBorrowed : Iron :=
  ⟨1, false, some "Alice", some 0, some 7200000, some "Room 101"⟩

/-- A three-unit all-available pool, as in the spec's Scenario A/B. -/
def demoPool : List Iron :=
  [ ⟨1, true, none, none, none, none⟩,
    ⟨2, true, none, none, none, none⟩,
    ⟨3, true, none, none, none, none⟩ ]

/-! ### Characterisation lemmas for the ledger operations -/

theorem findIron_cons (i : Iron) (rest : List Iron) (id : Int) :
    findIron (i :: rest) id =
      if i.ironId == id then some i else findIron rest id := by
  cases hid : i.ironId == id with
  | true => simp [findIron, List.find?_cons_of_pos, hid]
  | false => simp [findIron, List.find?_cons_of_neg, hid]

theorem findIron_ironId (irons : List Iron) (id : Int) (u : Iron)
    (h : findIron irons id = some u) : u.ironId = id := by
  have hp := List.find?_some h
  simpa using hp

theorem borrowIron_of_find_none (irons : List Iron) (id : Int)
    (bd : BorrowerData) (now : Int) (h : findIron irons id = none) :
    borrowIron irons id bd now = (none, irons) := by
  induction irons with
  | nil => rfl
  | cons i rest ih =>
    rw [findIron_cons] at h
    cases hid : i.ironId == id with
    | true => simp [hid] at h
    | false =>
      rw [if_neg (by simp [hid])] at h
      simp [borrowIron, hid, ih h]

theorem borrowIron_of_find_borrowed (irons : List Iron) (id : Int)
    (bd : BorrowerData) (now : Int) (u : Iron)
    (h : findIron irons id = some u) (hu : u.available = false) :
    borrowIron irons id bd now = (some u, irons) := by
  induction irons with
  | nil => simp [findIron] at h
  | cons i rest ih =>
    rw [findIron_cons] at h
    cases hid : i.ironId == id with
    | true =>
      rw [if_pos (by simp [hid])] at h
      cases h
      simp [borrowIron, hid, hu]
    | false =>
      rw [if_neg (by simp [hid])] at h
      simp [borrowIron, hid, ih h]

theorem borrowIron_of_find_available (irons : List Iron) (id : Int)
    (bd : BorrowerData) (now : Int) (u : Iron)
    (h : findIron irons id = some u) (hu : u.available = true) :
    borrowIron irons id bd now =
      (some (borrowedIron u bd now), setFirst irons id (borrowedIron u bd now)) := by
  induction irons with
  | nil => simp [findIron] at h
  | cons i rest ih =>
    rw [findIron_cons] at h
    cases hid : i.ironId == id with
    | true =>
      rw [if_pos (by simp [hid])] at h
      cases h
      simp [borrowIron, setFirst, hid, hu]
    | false =>
      rw [if_neg (by simp [hid])] at h
      simp [borrowIron, setFirst, hid, ih h]

theorem returnIron_of_find_none (irons : List Iron) (id : Int)
    (h : findIron irons id = none) :
    returnIron irons id = (none, irons) := by
  induction irons with
  | nil => rfl
  | cons i rest ih =>
    rw [findIron_cons] at h
    cases hid : i.ironId == id with
    | true => simp [hid] at h
    | false =>
      rw [if_neg (by simp [hid])] at h
      simp [returnIron, hid, ih h]

theorem returnIron_of_find_available (irons : List Iron) (id : Int) (u : Iron)
    (h : findIron irons id = some u) (hu : u.available = true) :
    returnIron irons id = (some u, irons) := by
  induction irons with
  | nil => simp [findIron] at h
  | cons i rest ih =>
    rw [findIron_cons] at h
    cases hid : i.ironId == id with
    | true =>
      rw [if_pos (by simp [hid])] at h
      cases h
      simp [returnIron, hid, hu]
    | false =>
      rw [if_neg (by simp [hid])] at h
      simp [returnIron, hid, ih h]

theorem returnIron_of_find_borrowed (irons : List Iron) (id : Int) (u : Iron)
    (h : findIron irons id = some u) (hu : u.available = false) :
    returnIron irons id =
      (some (clearedIron u), setFirst irons id (clearedIron u)) := by
  induction irons with
  | nil => simp [findIron] at h
  | cons i rest ih =>
    rw [findIron_cons] at h
    cases hid : i.ironId == id with
    | true =>
      rw [if_pos (by simp [hid])] at h
      cases h
      simp [returnIron, setFirst, hid, hu]
    | false =>
      rw [if_neg (by simp [hid])] at h
      simp [returnIron, setFirst, hid, ih h]

theorem findIron_setFirst (irons : List Iron) (id : Int) (u iNew : Iron)
    (h : findIron irons id = some u) (hNew : iNew.ironId = id) :
    findIron (setFirst irons id iNew) id = some iNew := by
  induction irons with
  | nil => simp [findIron] at h
  | cons i rest ih =>
    rw [findIron_cons] at h
    cases hid : i.ironId == id with
    | true =>
      simp [setFirst, hid, findIron_cons, hNew]
    | false =>
      rw [if_neg (by simp [hid])] at h
      simp [setFirst, hid, findIron_cons, ih h]

theorem findIron_setFirst_other (irons : List Iron) (idB id : Int) (iNew : Iron)
    (hNew : iNew.ironId = idB) (hne : idB ≠ id) :
    findIron (setFirst irons idB iNew) id = findIron irons id := by
  induction irons with
  | nil => rfl
  | cons i rest ih =>
    cases hidB : i.ironId == idB with
    | true =>
      have hi : i.ironId = idB := by simpa using hidB
      simp [setFirst, hidB, findIron_cons, hNew, hi, hne]
    | false =>
      simp [setFirst, hidB, findIron_cons, ih]

theorem setFirst_length (irons : List Iron) (id : Int) (iNew : Iron) :
    (setFirst irons id iNew).length = irons.length := by
  induction irons with
  | nil => rfl
  | cons i rest ih =>
    cases hid : i.ironId == id with
    | true => simp [setFirst, hid]
    | false => simp [setFirst, hid, ih]

theorem borrowIron_length (irons : List Iron) (id : Int) (bd : BorrowerData)
    (now : Int) : (borrowIron irons id bd now).2.length = irons.length := by
  induction irons with
  | nil => rfl
  | cons i rest ih =>
    cases hid : i.ironId == id with
    | true =>
      cases hav : i.available with
      | true => simp [borrowIron, hid, hav]
      | false => simp [borrowIron, hid, hav]
    | false => simp [borrowIron, hid, ih]

theorem returnIron_length (irons : List Iron) (id : Int) :
    (returnIron irons id).2.length = irons.length := by
  induction irons with
  | nil => rfl
  | cons i rest ih =>
    cases hid : i.ironId == id with
    | true =>
      cases hav : i.available with
      | true => simp [returnIron, hid, hav]
      | false => simp [returnIron, hid, hav]
    | false => simp [returnIron, hid, ih]

theorem length_filter_avail (irons : List Iron) :
    (irons.filter (fun i => i.available)).length
      + (irons.filter (fun i => !i.available)).length = irons.length := by
  induction irons with
  | nil => rfl
  | cons i rest ih =>
    cases hav : i.available with
    | true =>
      simp [List.filter_cons, hav]
      omega
    | false =>
      simp [List.filter_cons, hav]
      omega

/-- `borrowIron` never frees a unit: a borrowed id stays borrowed whatever
id the call targets. -/
theorem borrowIron_keeps_borrowed (irons : List Iron) (id idB : Int)
    (bd : BorrowerData) (now : Int) (h : ironStatus irons id = some false) :
    ironStatus (borrowIron irons idB bd now).2 id = some false := by
  cases hf : findIron irons idB with
  | none => rw [borrowIron_of_find_none _ _ _ _ hf]; exact h
  | some u =>
    cases hav : u.available with
    | false => rw [borrowIron_of_find_borrowed _ _ _ _ _ hf hav]; exact h
    | true =>
      rw [borrowIron_of_find_available _ _ _ _ _ hf hav]
      by_cases hide : idB = id
      · subst hide
        have hfi : findIron (setFirst irons idB (borrowedIron u bd now)) idB
            = some (borrowedIron u bd now) :=
          findIron_setFirst _ _ _ _ hf (by simp [borrowedIron, findIron_ironId _ _ _ hf])
        unfold ironStatus at h ⊢
        rw [hf] at h
        simp [hav] at h
      · unfold ironStatus
        rw [findIron_setFirst_other _ _ _ _
          (by simp [borrowedIron, findIron_ironId _ _ _ hf]) hide]
        exact h

/-- `returnIron` on one id leaves every other id's status unchanged. -/
theorem returnIron_keeps_other (irons : List Iron) (id idR : Int)
    (hne : idR ≠ id) :
    ironStatus (returnIron irons idR).2 id = ironStatus irons id := by
  cases hf : findIron irons idR with
  | none => rw [returnIron_of_find_none _ _ hf]
  | some u =>
    cases hav : u.available with
    | true => rw [returnIron_of_find_available _ _ _ hf hav]
    | false =>
      rw [returnIron_of_find_borrowed _ _ _ hf hav]
      unfold ironStatus
      rw [findIron_setFirst_other _ _ _ _
        (by simp [clearedIron, findIron_ironId _ _ _ hf]) hne]

/-- A checkout that records a room produces an I1-respecting unit. -/
theorem satisfiesI1_borrowedIron (i : Iron) (bd : BorrowerData) (now : Int)
    (hroom : bd.room.isSome = true) :
    satisfiesI1 (borrowedIron i bd now) = true := by
  simp [satisfiesI1, borrowedIron, hroom]

theorem satisfiesI1_clearedIron (i : Iron) :
    satisfiesI1 (clearedIron i) = true := rfl

theorem borrowIron_mem_I1 (irons : List Iron) (id : Int) (bd : BorrowerData)
    (now : Int) (hroom : bd.room.isSome = true)
    (hall : ∀ i ∈ irons, satisfiesI1 i = true) :
    ∀ i ∈ (borrowIron irons id bd now).2, satisfiesI1 i = true := by
  induction irons with
  | nil => intro i hi; simp [borrowIron] at hi
  | cons j rest ih =>
    intro i hi
    cases hid : j.ironId == id with
    | true =>
      cases hav : j.available with
      | true =>
        simp only [borrowIron, hid, hav, if_pos, if_true, List.mem_cons] at hi
        rcases hi with rfl | hi
        · exact satisfiesI1_borrowedIron j bd now hroom
        · exact hall i (List.mem_cons_of_mem _ hi)
      | false =>
        simp only [borrowIron, hid, hav, Bool.false_eq_true, if_false,
          if_true, List.mem_cons] at hi
        rcases hi with rfl | hi
        · exact hall i (List.mem_cons_self _ _)
        · exact hall i (List.mem_cons_of_mem _ hi)
    | false =>
      simp only [borrowIron, hid, Bool.false_eq_true, if_false,
        List.mem_cons] at hi
      rcases hi with rfl | hi
      · exact hall i (List.mem_cons_self _ _)
      · exact ih (fun k hk => hall k (List.mem_cons_of_mem _ hk)) i hi

theorem returnIron_mem_I1 (irons : List Iron) (id : Int)
    (hall : ∀ i ∈ irons, satisfiesI1 i = true) :
    ∀ i ∈ (returnIron irons id).2, satisfiesI1 i = true := by
  induction irons with
  | nil => intro i hi; simp [returnIron] at hi
  | cons j rest ih =>
    intro i hi
    cases hid : j.ironId == id with
    | true =>
      cases hav : j.available with
      | false =>
        simp only [returnIron, hid, hav, Bool.not_false, if_pos, if_true,
          List.mem_cons] at hi
        rcases hi with rfl | hi
        · exact satisfiesI1_clearedIron j
        · exact hall i (List.mem_cons_of_mem _ hi)
      | true =>
        simp only [returnIron, hid, hav, Bool.not_true, Bool.false_eq_true,
          if_false, if_true, List.mem_cons] at hi
        rcases hi with rfl | hi
        · exact hall i (List.mem_cons_self _ _)
        · exact hall i (List.mem_cons_of_mem _ hi)
    | false =>
      simp only [returnIron, hid, Bool.false_eq_true, if_false,
        List.mem_cons] at hi
      rcases hi with rfl | hi
      · exact hall i (List.mem_cons_self _ _)
      · exact ih (fun k hk => hall k (List.mem_cons_of_mem _ hk)) i hi

@[simp] theorem borrowedIron_available (i : Iron) (bd : BorrowerData) (now : Int) :
    (borrowedIron i bd now).available = false := rfl

@[simp] theorem borrowedIron_ironId (i : Iron) (bd : BorrowerData) (now : Int) :
    (borrowedIron i bd now).ironId = i.ironId := rfl

@[simp] theorem clearedIron_available (i : Iron) :
    (clearedIron i).available = true := rfl

@[simp] theorem clearedIron_ironId (i : Iron) :
    (clearedIron i).ironId = i.ironId := rfl

/-! ### Claim theorems -/

/-- C1: `checkout` on an `Available` unit always succeeds: `borrowIron`
(and the part_001 borrow route) turn the unit into CheckedOut with the given
holder and location, `checkedOutAt` set to the current time, `dueAt` equal to
`checkedOutAt` plus the requested positive duration in hours (4 hours when it
is absent), and the updated unit snapshot is returned. -/
theorem checkout_available_succeeds
    (irons : List Iron) (id : Int) (holder loc : String) (d : Option Int)
    (now : Int) (u : Iron)
    (hfind : findIron irons id = some u) (havail : u.available = true)
    (hid : id ≠ 0) (hholder : holder ≠ "")
    (hd : ∀ x, d = some x → 0 < x) :
    ∃ uNew,
      borrowIron irons id ⟨holder, d, some loc⟩ now
        = (some uNew, setFirst irons id uNew) ∧
      borrowRoutePart001 irons id holder (some loc) d now
        = (.success uNew, setFirst irons id uNew) ∧
      findIron (setFirst irons id uNew) id = some uNew ∧
      uNew.available = false ∧
      uNew.borrowedBy = some holder ∧
      uNew.room = some loc ∧
      uNew.borrowedAt = some now ∧
      (∀ x, d = some x → uNew.returnBy = some (now + x * hourMs)) ∧
      (d = none → uNew.returnBy = some (now + 4 * hourMs)) := by
  have h0 : (id == 0) = false := by simpa using hid
  have hh : (holder == "") = false := by simpa using hholder
  refine ⟨borrowedIron u ⟨holder, d, some loc⟩ now,
    borrowIron_of_find_available _ _ _ _ _ hfind havail, ?_, ?_, rfl, rfl, rfl, rfl,
    ?_, ?_⟩
  · simp [borrowRoutePart001, h0, hh, hfind, havail, borrowedIron]
  · exact findIron_setFirst _ _ _ _ hfind
      (by simp [findIron_ironId _ _ _ hfind])
  · intro x hx
    have hx0 : x ≠ 0 := by have := hd x hx; omega
    simp [borrowedIron, hx, jsOr, hx0]
  · intro hnone
    simp [borrowedIron, hnone, jsOr]

/-- C1 witness: in a one-unit pool, borrowing the available unit 1 for Alice
in Room 101 for 2 hours at time 0 succeeds as the theorem states. -/
theorem checkout_available_succeeds_witness :
    ∃ uNew,
      borrowIron [demoFree] 1 ⟨"Alice", some 2, some "Room 101"⟩ 0
        = (some uNew, setFirst [demoFree] 1 uNew) ∧
      borrowRoutePart001 [demoFree] 1 "Alice" (some "Room 101") (some 2) 0
        = (.success uNew, setFirst [demoFree] 1 uNew) ∧
      findIron (setFirst [demoFree] 1 uNew) 1 = some uNew ∧
      uNew.available = false ∧
      uNew.borrowedBy = some "Alice" ∧
      uNew.room = some "Room 101" ∧
      uNew.borrowedAt = some 0 ∧
      (∀ x, (some 2 : Option Int) = some x → uNew.returnBy = some (0 + x * hourMs)) ∧
      ((some 2 : Option Int) = none → uNew.returnBy = some (0 + 4 * hourMs)) :=
  checkout_available_succeeds [demoFree] 1 "Alice" "Room 101" (some 2) 0 demoFree
    rfl rfl (by decide) (by decide) (by intro x hx; cases hx; decide)

/-- C2: `checkout` on a CheckedOut unit fails with the AlreadyCheckedOut
error ("Iron is already borrowed") on both route variants and leaves the
ledger — hence every field of that unit — exactly as it was; `borrowIron`
itself performs no mutation and returns the untouched unit. -/
theorem checkout_checkedout_fails
    (irons : List Iron) (id : Int) (holder : String) (room : Option String)
    (d : Option Int) (now : Int) (u : Iron)
    (hfind : findIron irons id = some u) (hborrowed : u.available = false)
    (hid : id ≠ 0) (hholder : holder ≠ "") :
    borrowIron irons id ⟨holder, d, room⟩ now = (some u, irons) ∧
    borrowRoutePart000 irons id holder room d now = (.alreadyBorrowed, irons) ∧
    borrowRoutePart001 irons id holder room d now = (.alreadyBorrowed, irons) := by
  have h0 : (id == 0) = false := by simpa using hid
  have hh : (holder == "") = false := by simpa using hholder
  refine ⟨borrowIron_of_find_borrowed _ _ _ _ _ hfind hborrowed, ?_, ?_⟩
  · have hb := borrowIron_of_find_borrowed irons id
      ⟨holder, some (jsOr d 4), some (jsOrStr room "")⟩ now u hfind hborrowed
    simp [borrowRoutePart000, h0, hh, hb, hborrowed]
  · simp [borrowRoutePart001, h0, hh, hfind, hborrowed]

/-- C2 witness: borrowing the already-borrowed unit 1 for Bob fails with the
AlreadyCheckedOut error on both routes and the ledger is unchanged. -/
theorem checkout_checkedout_fails_witness :
    borrowIron [demoBorrowed] 1 ⟨"Bob", some 1, some "Room 102"⟩ 5
      = (some demoBorrowed, [demoBorrowed]) ∧
    borrowRoutePart000 [demoBorrowed] 1 "Bob" (some "Room 102") (some 1) 5
      = (.alreadyBorrowed, [demoBorrowed]) ∧
    borrowRoutePart001 [demoBorrowed] 1 "Bob" (some "Room 102") (some 1) 5
      = (.alreadyBorrowed, [demoBorrowed]) :=
  checkout_checkedout_fails [demoBorrowed] 1 "Bob" (some "Room 102") (some 1) 5
    demoBorrowed rfl rfl (by decide) (by decide)

/-- C3 counterexample: releasing the Available unit 1 through the part_000
return route yields the success response ("Iron returned successfully",
carrying the still-available unit), not a NotCheckedOut failure. -/
theorem release_available_silent_success_cex :
    returnRoutePart000 [demoFree] 1 = (.success demoFree, [demoFree]) := by
  decide

/-- C3 amended: a release of an Available unit never mutates the ledger, and
the part_001 route rejects it with the NotCheckedOut error
("Iron is not currently borrowed"); but `DatabaseManager.returnIron` returns
the unit without any error tag, so the part_000 route reports the release as
successful — a silent no-op instead of a NotCheckedOut failure. -/
theorem release_available_behaviour
    (irons : List Iron) (id : Int) (u : Iron)
    (hfind : findIron irons id = some u) (havail : u.available = true)
    (hid : id ≠ 0) :
    returnIron irons id = (some u, irons) ∧
    returnRoutePart001 irons id = (.notBorrowed, irons) ∧
    returnRoutePart000 irons id = (.success u, irons) := by
  have h0 : (id == 0) = false := by simpa using hid
  refine ⟨returnIron_of_find_available _ _ _ hfind havail, ?_, ?_⟩
  · simp [returnRoutePart001, h0, hfind, havail]
  · simp [returnRoutePart000, h0, returnIron_of_find_available _ _ _ hfind havail]

/-- C3 amended witness: the three behaviours at the concrete one-unit
available pool. -/
theorem release_available_behaviour_witness :
    returnIron [demoFree] 1 = (some demoFree, [demoFree]) ∧
    returnRoutePart001 [demoFree] 1 = (.notBorrowed, [demoFree]) ∧
    returnRoutePart000 [demoFree] 1 = (.success demoFree, [demoFree]) :=
  release_available_behaviour [demoFree] 1 demoFree rfl rfl (by decide)

/-- C4: `release` on a CheckedOut unit succeeds: `returnIron` (and the
part_001 return route) clear holder, checkedOutAt, dueAt and location, set
the unit's status to Available, and return the updated snapshot. -/
theorem release_checkedout_succeeds
    (irons : List Iron) (id : Int) (u : Iron)
    (hfind : findIron irons id = some u) (hborrowed : u.available = false)
    (hid : id ≠ 0) :
    returnIron irons id
      = (some (clearedIron u), setFirst irons id (clearedIron u)) ∧
    returnRoutePart001 irons id
      = (.success (clearedIron u), setFirst irons id (clearedIron u)) ∧
    findIron (setFirst irons id (clearedIron u)) id = some (clearedIron u) ∧
    (clearedIron u).available = true ∧
    (clearedIron u).borrowedBy = none ∧
    (clearedIron u).borrowedAt = none ∧
    (clearedIron u).returnBy = none ∧
    (clearedIron u).room = none := by
  have h0 : (id == 0) = false := by simpa using hid
  refine ⟨returnIron_of_find_borrowed _ _ _ hfind hborrowed, ?_, ?_,
    rfl, rfl, rfl, rfl, rfl⟩
  · simp [returnRoutePart001, h0, hfind, hborrowed]
  · exact findIron_setFirst _ _ _ _ hfind
      (by simp [findIron_ironId _ _ _ hfind])

/-- C4 witness: releasing the borrowed unit 1 clears every borrow field and
returns the Available snapshot. -/
theorem release_checkedout_succeeds_witness :
    returnIron [demoBorrowed] 1
      = (some (clearedIron demoBorrowed), setFirst [demoBorrowed] 1 (clearedIron demoBorrowed)) ∧
    returnRoutePart001 [demoBorrowed] 1
      = (.success (clearedIron demoBorrowed), setFirst [demoBorrowed] 1 (clearedIron demoBorrowed)) ∧
    findIron (setFirst [demoBorrowed] 1 (clearedIron demoBorrowed)) 1
      = some (clearedIron demoBorrowed) ∧
    (clearedIron demoBorrowed).available = true ∧
    (clearedIron demoBorrowed).borrowedBy = none ∧
    (clearedIron demoBorrowed).borrowedAt = none ∧
    (clearedIron demoBorrowed).returnBy = none ∧
    (clearedIron demoBorrowed).room = none :=
  release_checkedout_succeeds [demoBorrowed] 1 demoBorrowed rfl rfl (by decide)

/-- C5 counterexample: the initially provisioned states violate invariant I1.
In the part_001 seed, unit 3 (index 2) is CheckedOut but carries no location;
and `getDefaultIrons` can draw a unit that is CheckedOut with no holder, no
timestamps and no room (draws d1 = false, d2 = d3 = d4 = d5 = true). -/
theorem provisioned_state_violates_I1_cex :
    ((part001SeedIrons 0)[2]?).map satisfiesI1 = some false ∧
    (part001SeedIrons 0).all satisfiesI1 = false ∧
    satisfiesI1 (defaultIronUnit 1 false true true true true 0 "101") = false := by
  decide

/-- C5 amended: invariant I1 is preserved by the ledger operations — a
checkout that supplies a location (as the part_000 route always does by
passing `room || ''`) and any release keep every unit I1-consistent — but I1
does not hold of the initially provisioned state, which can mark units
CheckedOut with absent borrow fields. -/
theorem I1_preserved_by_operations
    (irons : List Iron) (id : Int) (bd : BorrowerData) (now : Int)
    (hroom : bd.room.isSome = true)
    (hall : ∀ i ∈ irons, satisfiesI1 i = true) :
    (∀ i ∈ (borrowIron irons id bd now).2, satisfiesI1 i = true) ∧
    (∀ i ∈ (returnIron irons id).2, satisfiesI1 i = true) :=
  ⟨borrowIron_mem_I1 irons id bd now hroom hall,
   returnIron_mem_I1 irons id hall⟩

/-- C5 amended witness: I1 holds for every unit after a borrow and after a
return on the concrete three-unit pool. -/
theorem I1_preserved_by_operations_witness :
    (∀ i ∈ (borrowIron demoPool 2 ⟨"Alice", some 2, some "Room 101"⟩ 0).2,
      satisfiesI1 i = true) ∧
    (∀ i ∈ (returnIron demoPool 2).2, satisfiesI1 i = true) :=
  I1_preserved_by_operations demoPool 2 ⟨"Alice", some 2, some "Room 101"⟩ 0
    (by decide) (by decide)

/-- C6: the status route's summary always satisfies
available + borrowed = total, and total is unchanged by every `borrowIron`
and `returnIron` call, successful or failed; the summary is recomputed from
the unit array on each call by definition of `summarize`. -/
theorem summarize_consistent
    (irons : List Iron) (id : Int) (bd : BorrowerData) (now : Int) :
    (summarize irons).available + (summarize irons).borrowed
      = (summarize irons).total ∧
    (summarize (borrowIron irons id bd now).2).total = (summarize irons).total ∧
    (summarize (returnIron irons id).2).total = (summarize irons).total := by
  refine ⟨length_filter_avail irons, ?_, ?_⟩
  · simp [summarize, borrowIron_length]
  · simp [summarize, returnIron_length]

/-- C7: for an ironId that matches no unit, both checkout and release fail
with the NotFound error on every route and leave the ledger unchanged;
`borrowIron`/`returnIron` return `undefined` and touch nothing. -/
theorem unknown_unit_notfound
    (irons : List Iron) (id : Int) (holder : String) (room : Option String)
    (d : Option Int) (now : Int)
    (hfind : findIron irons id = none) (hid : id ≠ 0) (hholder : holder ≠ "") :
    borrowIron irons id ⟨holder, d, room⟩ now = (none, irons) ∧
    returnIron irons id = (none, irons) ∧
    borrowRoutePart000 irons id holder room d now = (.notFound, irons) ∧
    borrowRoutePart001 irons id holder room d now = (.notFound, irons) ∧
    returnRoutePart000 irons id = (.notFound, irons) ∧
    returnRoutePart001 irons id = (.notFound, irons) := by
  have h0 : (id == 0) = false := by simpa using hid
  have hh : (holder == "") = false := by simpa using hholder
  refine ⟨borrowIron_of_find_none _ _ _ _ hfind,
    returnIron_of_find_none _ _ hfind, ?_, ?_, ?_, ?_⟩
  · simp [borrowRoutePart000, h0, hh, borrowIron_of_find_none _ _ _ _ hfind]
  · simp [borrowRoutePart001, h0, hh, hfind]
  · simp [returnRoutePart000, h0, returnIron_of_find_none _ _ hfind]
  · simp [returnRoutePart001, h0, hfind]

/-- C7 witness: Scenario B — `checkout(99, "Alice", "x")` and
`release(99)` on the three-unit pool all fail NotFound with the pool
unchanged. -/
theorem unknown_unit_notfound_witness :
    borrowIron demoPool 99 ⟨"Alice", none, some "x"⟩ 0 = (none, demoPool) ∧
    returnIron demoPool 99 = (none, demoPool) ∧
    borrowRoutePart000 demoPool 99 "Alice" (some "x") none 0 = (.notFound, demoPool) ∧
    borrowRoutePart001 demoPool 99 "Alice" (some "x") none 0 = (.notFound, demoPool) ∧
    returnRoutePart000 demoPool 99 = (.notFound, demoPool) ∧
    returnRoutePart001 demoPool 99 = (.notFound, demoPool) :=
  unknown_unit_notfound demoPool 99 "Alice" (some "x") none 0
    rfl (by decide) (by decide)

/-- C8 counterexample: `duration || 4` defaults only on falsy values, so a
negative durationHours is used as-is.  Borrowing the available unit 1 at
time 0 with durationHours = -1 stores dueAt = -3600000, which is neither
checkedOutAt + 4h = 14400000 nor after checkedOutAt (I2 fails). -/
theorem negative_duration_cex :
    (borrowIron [demoFree] 1 ⟨"Alice", some (-1), some "Room 101"⟩ 0).1
      = some ⟨1, false, some "Alice", some 0, some (-3600000), some "Room 101"⟩ ∧
    ¬ ((-3600000 : Int) = 0 + 4 * hourMs) ∧
    ¬ ((0 : Int) < -3600000) := by
  decide

/-- C8 amended: the 4-hour default applies exactly when durationHours is
absent or zero (the JS falsy cases of `duration || 4`); then
dueAt = checkedOutAt + 4h and I2 holds.  Negative durations are not
defaulted but used as-is. -/
theorem duration_default_when_falsy
    (irons : List Iron) (id : Int) (holder : String) (room : Option String)
    (d : Option Int) (now : Int) (u : Iron)
    (hfind : findIron irons id = some u) (havail : u.available = true)
    (hd : d = none ∨ d = some 0) :
    ∃ uNew, (borrowIron irons id ⟨holder, d, room⟩ now).1 = some uNew ∧
      uNew.borrowedAt = some now ∧
      uNew.returnBy = some (now + 4 * hourMs) ∧
      now < now + 4 * hourMs := by
  have hjs : jsOr d 4 = 4 := by rcases hd with rfl | rfl <;> simp [jsOr]
  refine ⟨borrowedIron u ⟨holder, d, room⟩ now, ?_, rfl, ?_, ?_⟩
  · rw [borrowIron_of_find_available _ _ _ _ _ hfind havail]
  · simp [borrowedIron, hjs]
  · simp only [hourMs]
    omega

/-- C8 amended witness: borrowing with an absent duration at time 0 gives
dueAt = 4 hours. -/
theorem duration_default_when_falsy_witness :
    ∃ uNew,
      (borrowIron [demoFree] 1 ⟨"Alice", none, some "Room 101"⟩ 0).1 = some uNew ∧
      uNew.borrowedAt = some 0 ∧
      uNew.returnBy = some (0 + 4 * hourMs) ∧
      (0 : Int) < 0 + 4 * hourMs :=
  duration_default_when_falsy [demoFree] 1 "Alice" (some "Room 101") none 0 demoFree
    rfl rfl (Or.inl rfl)

/-- C9: time passing never frees a unit: in the step relation covering every
operation of the running system (borrow, return, the persistence-only
autosave timer, the persistence-only SIGINT handler, the read route, and
clock ticks), the only step that takes a unit from CheckedOut to Available
is an explicit return of that unit's id. -/
theorem no_auto_release (s : SysState) (a : Action) (id : Int)
    (h1 : ironStatus s.irons id = some false)
    (h2 : ironStatus (step s a).irons id = some true) :
    a = Action.ret id := by
  cases a with
  | borrow idB bd =>
    have hk := borrowIron_keeps_borrowed s.irons id idB bd s.now h1
    simp [step, hk] at h2
  | ret idR =>
    by_cases hne : idR = id
    · subst hne; rfl
    · have hk := returnIron_keeps_other s.irons id idR hne
      simp [step, hk, h1] at h2
  | autosave => simp [step, h1] at h2
  | shutdownSave => simp [step, h1] at h2
  | readStatus => simp [step, h1] at h2
  | tick dt => simp [step, h1] at h2

/-- C9 witness: on a state holding the borrowed unit 1, the step that makes
it available is the explicit return of id 1. -/
theorem no_auto_release_witness :
    ironStatus [demoBorrowed] 1 = some false ∧
    ironStatus (step ⟨[demoBorrowed], 0⟩ (Action.ret 1)).irons 1 = some true ∧
    Action.ret (1 : Int) = Action.ret 1 :=
  ⟨by decide, by decide,
   no_auto_release ⟨[demoBorrowed], 0⟩ (Action.ret 1) 1 (by decide) (by decide)⟩

/-- C10: the part_000 borrow route inspects `iron.available` only after
`borrowIron` has already cleared it, so for every request naming an existing
iron it answers 400 "Iron is already borrowed" and never the success
response — even when the iron was Available and the call really checked it
out. -/
theorem part000_borrow_always_rejects
    (irons : List Iron) (id : Int) (holder : String) (room : Option String)
    (d : Option Int) (now : Int) (u : Iron)
    (hfind : findIron irons id = some u) (hid : id ≠ 0) (hholder : holder ≠ "") :
    (borrowRoutePart000 irons id holder room d now).1
      = BorrowResponse.alreadyBorrowed ∧
    (∀ uNew, (borrowRoutePart000 irons id holder room d now).1
      ≠ BorrowResponse.success uNew) ∧
    (u.available = true →
      ironStatus (borrowRoutePart000 irons id holder room d now).2 id
        = some false) := by
  have h0 : (id == 0) = false := by simpa using hid
  have hh : (holder == "") = false := by simpa using hholder
  have key : (borrowRoutePart000 irons id holder room d now).1
      = BorrowResponse.alreadyBorrowed := by
    cases hav : u.available with
    | false =>
      have hb := borrowIron_of_find_borrowed irons id
        ⟨holder, some (jsOr d 4), some (jsOrStr room "")⟩ now u hfind hav
      simp [borrowRoutePart000, h0, hh, hb, hav]
    | true =>
      have hb := borrowIron_of_find_available irons id
        ⟨holder, some (jsOr d 4), some (jsOrStr room "")⟩ now u hfind hav
      simp [borrowRoutePart000, h0, hh, hb]
  refine ⟨key, ?_, ?_⟩
  · intro uNew hcon
    rw [key] at hcon
    exact BorrowResponse.noConfusion hcon
  · intro hav
    have hb := borrowIron_of_find_available irons id
      ⟨holder, some (jsOr d 4), some (jsOrStr room "")⟩ now u hfind hav
    have hfi := findIron_setFirst irons id u
      (borrowedIron u ⟨holder, some (jsOr d 4), some (jsOrStr room "")⟩ now)
      hfind (by simp [findIron_ironId _ _ _ hfind])
    simp [borrowRoutePart000, h0, hh, hb, ironStatus, hfi]

/-- C10 witness: the part_000 borrow of the Available unit 1 answers the
AlreadyCheckedOut error, never success, and the unit really became
borrowed. -/
theorem part000_borrow_always_rejects_witness :
    (borrowRoutePart000 [demoFree] 1 "Alice" (some "Room 101") (some 2) 0).1
      = BorrowResponse.alreadyBorrowed ∧
    (∀ uNew, (borrowRoutePart000 [demoFree] 1 "Alice" (some "Room 101") (some 2) 0).1
      ≠ BorrowResponse.success uNew) ∧
    (demoFree.available = true →
      ironStatus (borrowRoutePart000 [demoFree] 1 "Alice" (some "Room 101") (some 2) 0).2 1
        = some false) :=
  part000_borrow_always_rejects [demoFree] 1 "Alice" (some "Room 101") (some 2) 0
    demoFree rfl (by decide) (by decide)

end IronLedger
